import Mathlib

/-!
Verification development for the LTO plugin bridge (`elf/lto.cc`) of the
mold linker. The C++ definitions are shallowly embedded: plugin-API enum
values become inductive types, the link-wide symbol table becomes an
explicit environment mapping symbol ids to owning-file ids, and object
pointers become numeric object ids. Out-of-bounds vector accesses (which
are undefined behaviour in the C++) are modelled by `Option`, with `none`
standing for the out-of-bounds read.
-/

set_option autoImplicit false

namespace MoldLTO

/-- Per-symbol resolution results of the linker plugin API
(`ld_plugin_symbol_resolution`); only the values produced by
`get_symbols` are modelled. -/
inductive Resolution where
  | ldpr_undef
  | ldpr_prevailing_def
  | ldpr_resolved_dyn
  | ldpr_resolved_ir
  | ldpr_resolved_exec
  | ldpr_preempted_reg
  deriving DecidableEq, Repr

/-- Status codes of the linker plugin API (`ld_plugin_status`); only the
values that `lto.cc` mentions are modelled. -/
inductive PluginStatus where
  | ldps_ok
  | ldps_no_syms
  | ldps_err
  deriving DecidableEq, Repr

/-- The link-wide environment that `get_symbols` consults: for each
symbol id, `fileOf` is the owning input file (`sym.file`, `none` when the
symbol has no owner), and for each file id, `is_dso` and `is_lto_obj`
are the classification predicates used by `get_resolution`
(`sym.file->is_dso()` and `((ObjectFile<E> *)sym.file)->is_lto_obj`). -/
structure LinkEnv where
  fileOf : Nat → Option Nat
  is_dso : Nat → Bool
  is_lto_obj : Nat → Bool

/-- The slice of an `ObjectFile<E>` that `get_symbols` reads: the
object's identity (its address, as an id), its `is_alive` flag, and its
`symbols` vector (symbol ids; index 0 is the reserved null symbol). -/
structure LTOFile where
  id : Nat
  is_alive : Bool
  symbols : List Nat
  deriving Repr

/-- The `get_resolution` lambda inside `get_symbols` (lto.cc:255-265):
no owner → `LDPR_UNDEF`; owner is this very file → `LDPR_PREVAILING_DEF`;
owner is a DSO → `LDPR_RESOLVED_DYN`; owner is an LTO (IR) object →
`LDPR_RESOLVED_IR`; otherwise `LDPR_RESOLVED_EXEC`. -/
def get_resolution (env : LinkEnv) (file : LTOFile) (symId : Nat) : Resolution :=
  match env.fileOf symId with
  | none => .ldpr_undef
  | some owner =>
    if owner = file.id then .ldpr_prevailing_def
    else if env.is_dso owner then .ldpr_resolved_dyn
    else if env.is_lto_obj owner then .ldpr_resolved_ir
    else .ldpr_resolved_exec

/-- The loop of `get_symbols` (lto.cc:267-271): for `n` consecutive
query indices starting at `i`, read `file.symbols[i + 1]` and classify
it. A read past the end of the `symbols` vector is the C++'s
out-of-bounds access, modelled as `none`. -/
def resolveSyms (env : LinkEnv) (file : LTOFile) : Nat → Nat → Option (List Resolution)
  | _, 0 => some []
  | i, n + 1 =>
    match file.symbols.get? (i + 1) with
    | none => none
    | some s =>
      match resolveSyms env file (i + 1) n with
      | none => none
      | some rest => some (get_resolution env file s :: rest)

/-- `get_symbols` (lto.cc:244-273). If the object is no longer alive,
every requested symbol is reported `LDPR_PREEMPTED_REG` and the call
returns `LDPS_NO_SYMS`; otherwise each requested symbol is classified
from the link-wide table and the call returns `LDPS_OK`. The returned
list holds the resolutions written into `psyms[0..nsyms)`. -/
def get_symbols (env : LinkEnv) (file : LTOFile) (nsyms : Nat) :
    Option (List Resolution × PluginStatus) :=
  if file.is_alive = false then
    some (List.replicate nsyms .ldpr_preempted_reg, .ldps_no_syms)
  else
    match resolveSyms env file 0 nsyms with
    | none => none
    | some rs => some (rs, .ldps_ok)

/-- The status translation done by `get_symbols_v2` (lto.cc:280):
`LDPS_NO_SYMS` becomes `LDPS_OK`, every other status is unchanged. -/
def v2_status (st : PluginStatus) : PluginStatus :=
  if st = .ldps_no_syms then .ldps_ok else st

/-- `get_symbols_v2` (lto.cc:275-281): runs `get_symbols` and rewrites
the returned status through `v2_status`. -/
def get_symbols_v2 (env : LinkEnv) (file : LTOFile) (nsyms : Nat) :
    Option (List Resolution × PluginStatus) :=
  match get_symbols env file nsyms with
  | none => none
  | some (rs, st) => some (rs, v2_status st)

/-- `get_symbols_v3` (lto.cc:283-288): forwards to `get_symbols`
unchanged. -/
def get_symbols_v3 (env : LinkEnv) (file : LTOFile) (nsyms : Nat) :
    Option (List Resolution × PluginStatus) :=
  get_symbols env file nsyms

theorem resolveSyms_length (env : LinkEnv) (file : LTOFile) :
    ∀ n i rs, resolveSyms env file i n = some rs → rs.length = n := by
  intro n
  induction n with
  | zero => intro i rs h; simp [resolveSyms] at h; simp [← h]
  | succ n ih =>
    intro i rs h
    simp only [resolveSyms] at h
    cases hg : file.symbols.get? (i + 1) with
    | none => rw [hg] at h; exact absurd h (by simp)
    | some s =>
      rw [hg] at h
      cases hr : resolveSyms env file (i + 1) n with
      | none => rw [hr] at h; exact absurd h (by simp)
      | some rest =>
        rw [hr] at h
        have : rs = get_resolution env file s :: rest := by
          simpa using h.symm
        subst this
        simp [ih (i + 1) rest hr]

theorem resolveSyms_get (env : LinkEnv) (file : LTOFile) :
    ∀ n i rs, resolveSyms env file i n = some rs →
      ∀ j, j < n → ∃ s, file.symbols.get? (i + j + 1) = some s ∧
        rs.get? j = some (get_resolution env file s) := by
  intro n
  induction n with
  | zero => intro i rs _ j hj; exact absurd hj (by omega)
  | succ n ih =>
    intro i rs h j hj
    simp only [resolveSyms] at h
    cases hg : file.symbols.get? (i + 1) with
    | none => rw [hg] at h; exact absurd h (by simp)
    | some s =>
      rw [hg] at h
      cases hr : resolveSyms env file (i + 1) n with
      | none => rw [hr] at h; exact absurd h (by simp)
      | some rest =>
        rw [hr] at h
        have hrs : rs = get_resolution env file s :: rest := by
          simpa using h.symm
        subst hrs
        cases j with
        | zero => exact ⟨s, by simpa using hg, by simp⟩
        | succ j =>
          obtain ⟨s', hs', hr'⟩ := ih (i + 1) rest hr j (by omega)
          refine ⟨s', ?_, by simpa using hr'⟩
          have : i + 1 + j + 1 = i + (j + 1) + 1 := by omega
          rw [← this]; exact hs'

theorem resolveSyms_isSome (env : LinkEnv) (file : LTOFile) :
    ∀ n i, (resolveSyms env file i n).isSome = true ↔
      (n = 0 ∨ i + n + 1 ≤ file.symbols.length) := by
  intro n
  induction n with
  | zero => intro i; simp [resolveSyms]
  | succ n ih =>
    intro i
    simp only [resolveSyms]
    cases hg : file.symbols.get? (i + 1) with
    | none =>
      have hlen : file.symbols.length ≤ i + 1 := List.get?_eq_none.mp hg
      simp only [Option.isSome_none]
      constructor
      · intro h; exact absurd h (by simp)
      · intro h
        rcases h with h | h
        · exact absurd h (by omega)
        · omega
    | some s =>
      have hlt : i + 1 < file.symbols.length := by
        by_contra hc
        push_neg at hc
        rw [List.get?_eq_none.mpr (by omega)] at hg
        exact absurd hg (by simp)
      cases hr : resolveSyms env file (i + 1) n with
      | none =>
        have hne : ¬(n = 0 ∨ i + 1 + n + 1 ≤ file.symbols.length) := by
          intro hcon
          have h2 := (ih (i + 1)).mpr hcon
          rw [hr] at h2
          simp at h2
        push_neg at hne
        simp only [Option.isSome_none, Bool.false_eq_true, false_iff]
        push_neg
        exact ⟨by omega, by omega⟩
      | some rest =>
        have := ih (i + 1)
        rw [hr] at this
        simp only [Option.isSome_some, true_iff] at this
        simp only [Option.isSome_some, true_iff]
        rcases this with h | h
        · subst h; omega
        · right; omega

/-- A concrete link environment for witnesses: symbol 10 is owned by
file 1, symbol 11 by file 2, symbol 12 by file 3, symbol 13 by file 4,
symbol 14 by nobody; file 2 is an LTO object, file 3 is a DSO, file 4 a
regular object. -/
def envA : LinkEnv where
  fileOf := fun s =>
    if s = 10 then some 1 else if s = 11 then some 2
    else if s = 12 then some 3 else if s = 13 then some 4 else none
  is_dso := fun o => o == 3
  is_lto_obj := fun o => o == 1 || o == 2

/-- A concrete live LTO object for witnesses: object id 1, two plugin
symbols recorded at claim time (ids 10 and 11) after the reserved null
symbol (id 0). -/
def fileA : LTOFile where
  id := 1
  is_alive := true
  symbols := [0, 10, 11]

/-- A concrete retired LTO object for witnesses: `is_alive` is false. -/
def fileDead : LTOFile where
  id := 1
  is_alive := false
  symbols := [0, 10]

/-- C1: on a live previously-claimed object, `get_symbols` classifies
each requested symbol from the link-wide table's current owner — no
owner → `LDPR_UNDEF`; the queried object itself → `LDPR_PREVAILING_DEF`;
a DSO → `LDPR_RESOLVED_DYN`; another IR object → `LDPR_RESOLVED_IR`;
any other object → `LDPR_RESOLVED_EXEC` — and returns `LDPS_OK`. -/
theorem get_symbols_alive_classification (env : LinkEnv) (file : LTOFile)
    (nsyms : Nat) (halive : file.is_alive = true)
    (hcount : nsyms + 1 ≤ file.symbols.length) :
    ∃ rs, get_symbols env file nsyms = some (rs, .ldps_ok) ∧
      rs.length = nsyms ∧
      ∀ j, j < nsyms → ∃ s, file.symbols.get? (j + 1) = some s ∧
        (env.fileOf s = none → rs.get? j = some .ldpr_undef) ∧
        (∀ o, env.fileOf s = some o →
          (o = file.id → rs.get? j = some .ldpr_prevailing_def) ∧
          (o ≠ file.id → env.is_dso o = true →
            rs.get? j = some .ldpr_resolved_dyn) ∧
          (o ≠ file.id → env.is_dso o = false → env.is_lto_obj o = true →
            rs.get? j = some .ldpr_resolved_ir) ∧
          (o ≠ file.id → env.is_dso o = false → env.is_lto_obj o = false →
            rs.get? j = some .ldpr_resolved_exec)) := by
  have hsome : (resolveSyms env file 0 nsyms).isSome = true :=
    (resolveSyms_isSome env file nsyms 0).mpr (Or.inr (by omega))
  obtain ⟨rs, hrs⟩ := Option.isSome_iff_exists.mp hsome
  refine ⟨rs, ?_, resolveSyms_length env file nsyms 0 rs hrs, ?_⟩
  · simp [get_symbols, halive, hrs]
  · intro j hj
    obtain ⟨s, hs, hget⟩ := resolveSyms_get env file nsyms 0 rs hrs j hj
    refine ⟨s, by simpa using hs, ?_, ?_⟩
    · intro hnone
      rw [hget]
      simp [get_resolution, hnone]
    · intro o ho
      refine ⟨?_, ?_, ?_, ?_⟩
      · intro h1
        rw [hget]; simp [get_resolution, ho, h1]
      · intro h1 h2
        rw [hget]; simp [get_resolution, ho, h1, h2]
      · intro h1 h2 h3
        rw [hget]; simp [get_resolution, ho, h1, h2, h3]
      · intro h1 h2 h3
        rw [hget]; simp [get_resolution, ho, h1, h2, h3]

/-- Witness for C1 at the concrete environment `envA` and live object
`fileA` with both recorded symbols requested. -/
theorem get_symbols_alive_classification_witness :
    fileA.is_alive = true ∧ 2 + 1 ≤ fileA.symbols.length ∧
      (∃ rs, get_symbols envA fileA 2 = some (rs, .ldps_ok) ∧
        rs.length = 2 ∧
        ∀ j, j < 2 → ∃ s, fileA.symbols.get? (j + 1) = some s ∧
          (envA.fileOf s = none → rs.get? j = some .ldpr_undef) ∧
          (∀ o, envA.fileOf s = some o →
            (o = fileA.id → rs.get? j = some .ldpr_prevailing_def) ∧
            (o ≠ fileA.id → envA.is_dso o = true →
              rs.get? j = some .ldpr_resolved_dyn) ∧
            (o ≠ fileA.id → envA.is_dso o = false → envA.is_lto_obj o = true →
              rs.get? j = some .ldpr_resolved_ir) ∧
            (o ≠ fileA.id → envA.is_dso o = false → envA.is_lto_obj o = false →
              rs.get? j = some .ldpr_resolved_exec))) :=
  ⟨rfl, by decide, get_symbols_alive_classification envA fileA 2 rfl (by decide)⟩

/-- C2: on a retired object (`is_alive = false`) every requested symbol
is reported `LDPR_PREEMPTED_REG` and the base query returns
`LDPS_NO_SYMS`; `get_symbols_v2` turns exactly `LDPS_NO_SYMS` into
`LDPS_OK` and leaves every other status unchanged; `get_symbols_v3`
returns the base query's result verbatim. -/
theorem get_symbols_dead_preempted (env : LinkEnv) (file : LTOFile)
    (nsyms : Nat) (hdead : file.is_alive = false) :
    get_symbols env file nsyms =
      some (List.replicate nsyms .ldpr_preempted_reg, .ldps_no_syms) ∧
    get_symbols_v2 env file nsyms =
      some (List.replicate nsyms .ldpr_preempted_reg, .ldps_ok) ∧
    get_symbols_v3 env file nsyms = get_symbols env file nsyms ∧
    v2_status .ldps_no_syms = .ldps_ok ∧
    (∀ st, st ≠ .ldps_no_syms → v2_status st = st) := by
  refine ⟨by simp [get_symbols, hdead], ?_, rfl, rfl, ?_⟩
  · simp [get_symbols_v2, get_symbols, hdead, v2_status]
  · intro st hst
    cases st with
    | ldps_ok => rfl
    | ldps_no_syms => exact absurd rfl hst
    | ldps_err => rfl

/-- Witness for C2 at the concrete retired object `fileDead` with two
requested symbols. -/
theorem get_symbols_dead_preempted_witness :
    fileDead.is_alive = false ∧
    (get_symbols envA fileDead 2 =
      some (List.replicate 2 .ldpr_preempted_reg, .ldps_no_syms) ∧
    get_symbols_v2 envA fileDead 2 =
      some (List.replicate 2 .ldpr_preempted_reg, .ldps_ok) ∧
    get_symbols_v3 envA fileDead 2 = get_symbols envA fileDead 2 ∧
    v2_status .ldps_no_syms = .ldps_ok ∧
    (∀ st, st ≠ .ldps_no_syms → v2_status st = st)) :=
  ⟨rfl, get_symbols_dead_preempted envA fileDead 2 rfl⟩

/-- C7 counterexample: `fileA` recorded two plugin symbols at claim
time, yet a live-object query for one symbol (a disagreeing count)
triggers no assertion-level error — it returns `LDPS_OK` with the first
symbol classified — and a query for three symbols reads past the records
made at claim time (the out-of-bounds access, modelled as `none`). -/
theorem get_symbols_count_mismatch_not_checked :
    get_symbols envA fileA 1 = some ([.ldpr_prevailing_def], .ldps_ok) ∧
    get_symbols envA fileA 3 = none := by decide

/-- Plugin symbol definition kinds (`ld_plugin_symbol_kind`). -/
inductive DefKind where
  | ldpk_def
  | ldpk_weakdef
  | ldpk_undef
  | ldpk_weakundef
  | ldpk_common
  deriving DecidableEq, Repr

/-- Plugin symbol types (`ld_plugin_symbol_type`). -/
inductive LdSymType where
  | ldst_unknown
  | ldst_function
  | ldst_variable
  deriving DecidableEq, Repr

/-- Plugin symbol visibilities (`ld_plugin_symbol_visibility`). -/
inductive LdVisibility where
  | ldpv_default
  | ldpv_protected
  | ldpv_internal
  | ldpv_hidden
  deriving DecidableEq, Repr

/-- ELF special section indices used by `to_elf_sym`; `shn_undef` is the
zero value that `ElfSym<E> esym = {}` initializes `st_shndx` to. -/
inductive ShNdx where
  | shn_undef
  | shn_abs
  | shn_common
  deriving DecidableEq, Repr

/-- ELF symbol bindings used by `to_elf_sym`; `stb_local` is the zero
value that `ElfSym<E> esym = {}` initializes `st_bind` to. -/
inductive ElfBind where
  | stb_local
  | stb_weak
  deriving DecidableEq, Repr

/-- ELF symbol types used by `to_elf_sym`; `stt_notype` is the zero
value that `ElfSym<E> esym = {}` initializes `st_type` to. -/
inductive ElfType where
  | stt_notype
  | stt_func
  | stt_object
  deriving DecidableEq, Repr

/-- ELF symbol visibilities; `stv_default` is the zero value that
`ElfSym<E> esym = {}` initializes `st_visibility` to. -/
inductive ElfVisibility where
  | stv_default
  | stv_protected
  | stv_internal
  | stv_hidden
  deriving DecidableEq, Repr

/-- A plugin symbol record (`PluginSymbol`): the fields of
`ld_plugin_symbol` that `to_elf_sym` and `read_lto_object` read. The
C++ field `def` is named `def_kind` here (`def` is reserved). -/
structure PluginSymbol where
  name : Nat
  def_kind : DefKind
  symbol_type : LdSymType
  visibility : LdVisibility
  size : Nat
  deriving DecidableEq, Repr

/-- The fields of `ElfSym<E>` that `to_elf_sym` writes. -/
structure ElfSym where
  st_shndx : ShNdx
  st_bind : ElfBind
  st_type : ElfType
  st_visibility : ElfVisibility
  st_size : Nat
  deriving DecidableEq, Repr

/-- The zero-initialized `ElfSym<E> esym = {}` of lto.cc:398. -/
def elfSymZero : ElfSym where
  st_shndx := .shn_undef
  st_bind := .stb_local
  st_type := .stt_notype
  st_visibility := .stv_default
  st_size := 0

/-- `to_elf_sym` (lto.cc:396-447): synthesizes an ELF symbol from a
plugin symbol record via three switches (definition kind → section
index and binding; symbol type → ELF type; visibility → ELF visibility)
and a direct copy of the size. -/
def to_elf_sym (psym : PluginSymbol) : ElfSym :=
  let e1 :=
    match psym.def_kind with
    | .ldpk_def => { elfSymZero with st_shndx := .shn_abs }
    | .ldpk_weakdef => { elfSymZero with st_shndx := .shn_abs, st_bind := .stb_weak }
    | .ldpk_undef => { elfSymZero with st_shndx := .shn_undef }
    | .ldpk_weakundef => { elfSymZero with st_shndx := .shn_undef, st_bind := .stb_weak }
    | .ldpk_common => { elfSymZero with st_shndx := .shn_common }
  let e2 :=
    match psym.symbol_type with
    | .ldst_unknown => e1
    | .ldst_function => { e1 with st_type := .stt_func }
    | .ldst_variable => { e1 with st_type := .stt_object }
  let e3 :=
    match psym.visibility with
    | .ldpv_default => e2
    | .ldpv_protected => { e2 with st_visibility := .stv_protected }
    | .ldpv_internal => { e2 with st_visibility := .stv_internal }
    | .ldpv_hidden => { e2 with st_visibility := .stv_hidden }
  { e3 with st_size := psym.size }

/-- The visibility correspondence of `to_elf_sym`'s third switch: each
plugin visibility maps to the like-named ELF visibility. -/
def copy_visibility (v : LdVisibility) : ElfVisibility :=
  match v with
  | .ldpv_default => .stv_default
  | .ldpv_protected => .stv_protected
  | .ldpv_internal => .stv_internal
  | .ldpv_hidden => .stv_hidden

/-- C4: `to_elf_sym` maps the definition kind exactly (defined →
absolute/non-weak, weak-defined → absolute/weak, undefined →
undefined-index/non-weak, weak-undefined → undefined-index/weak,
common → common-index/non-weak), maps symbol type
unknown/function/variable to none/function/object, copies the
visibility directly, and copies the size directly. -/
theorem to_elf_sym_exact_mapping :
    (∀ n t v sz, (to_elf_sym ⟨n, .ldpk_def, t, v, sz⟩).st_shndx = .shn_abs ∧
      (to_elf_sym ⟨n, .ldpk_def, t, v, sz⟩).st_bind = .stb_local) ∧
    (∀ n t v sz, (to_elf_sym ⟨n, .ldpk_weakdef, t, v, sz⟩).st_shndx = .shn_abs ∧
      (to_elf_sym ⟨n, .ldpk_weakdef, t, v, sz⟩).st_bind = .stb_weak) ∧
    (∀ n t v sz, (to_elf_sym ⟨n, .ldpk_undef, t, v, sz⟩).st_shndx = .shn_undef ∧
      (to_elf_sym ⟨n, .ldpk_undef, t, v, sz⟩).st_bind = .stb_local) ∧
    (∀ n t v sz, (to_elf_sym ⟨n, .ldpk_weakundef, t, v, sz⟩).st_shndx = .shn_undef ∧
      (to_elf_sym ⟨n, .ldpk_weakundef, t, v, sz⟩).st_bind = .stb_weak) ∧
    (∀ n t v sz, (to_elf_sym ⟨n, .ldpk_common, t, v, sz⟩).st_shndx = .shn_common ∧
      (to_elf_sym ⟨n, .ldpk_common, t, v, sz⟩).st_bind = .stb_local) ∧
    (∀ n d v sz, (to_elf_sym ⟨n, d, .ldst_unknown, v, sz⟩).st_type = .stt_notype) ∧
    (∀ n d v sz, (to_elf_sym ⟨n, d, .ldst_function, v, sz⟩).st_type = .stt_func) ∧
    (∀ n d v sz, (to_elf_sym ⟨n, d, .ldst_variable, v, sz⟩).st_type = .stt_object) ∧
    (∀ p, (to_elf_sym p).st_visibility = copy_visibility p.visibility) ∧
    (∀ p, (to_elf_sym p).st_size = p.size) := by
  refine ⟨?_, ?_, ?_, ?_, ?_, ?_, ?_, ?_, ?_, ?_⟩
  all_goals
    first
    | (intro n t v sz
       cases t <;> cases v <;> exact ⟨rfl, rfl⟩)
    | (intro n d v sz
       cases d <;> cases v <;> rfl)
    | (intro p
       obtain ⟨n, d, t, v, sz⟩ := p
       cases d <;> cases t <;> cases v <;> rfl)

/-- C7 (amended): `get_symbols` performs no validation of the requested
count against the count recorded at claim time; for a live object it
silently classifies the first `nsyms` recorded symbols, and its reads
stay within the records made at claim time exactly when `nsyms` is at
most the recorded plugin-symbol count. -/
theorem get_symbols_inbounds_iff (env : LinkEnv) (file : LTOFile)
    (nsyms : Nat) (halive : file.is_alive = true)
    (hnull : 1 ≤ file.symbols.length) :
    (get_symbols env file nsyms).isSome = true ↔
      nsyms + 1 ≤ file.symbols.length := by
  have h := resolveSyms_isSome env file nsyms 0
  have h2 : (get_symbols env file nsyms).isSome =
      (resolveSyms env file 0 nsyms).isSome := by
    cases hr : resolveSyms env file 0 nsyms with
    | none => simp [get_symbols, halive, hr]
    | some rs => simp [get_symbols, halive, hr]
  rw [h2, h]
  omega

/-- Witness for C7's amended theorem at `envA` and `fileA`. -/
theorem get_symbols_inbounds_iff_witness :
    fileA.is_alive = true ∧ 1 ≤ fileA.symbols.length ∧
      ((get_symbols envA fileA 2).isSome = true ↔
        2 + 1 ≤ fileA.symbols.length) :=
  ⟨rfl, by decide, get_symbols_inbounds_iff envA fileA 2 rfl (by decide)⟩

/-- The slice of an `ObjectFile<E>` that `do_lto`'s retirement loop
reads and writes: its identity, its `is_lto_obj` flag and its
`is_alive` flag. -/
structure LinkObj where
  oid : Nat
  is_lto_obj : Bool
  is_alive : Bool
  deriving DecidableEq, Repr

/-- The first retirement pass of `do_lto` (lto.cc:513-515): every
object whose `is_lto_obj` flag is set gets `is_alive = false`; other
objects are untouched. -/
def retire_pass (objs : List LinkObj) : List LinkObj :=
  objs.map fun f => if f.is_lto_obj then { f with is_alive := false } else f

/-- The retirement step of `do_lto` (lto.cc:512-517): mark every LTO
object dead, then `std::erase_if` removes the LTO objects from
`ctx.objs`. -/
def do_lto_objs (objs : List LinkObj) : List LinkObj :=
  (retire_pass objs).filter fun f => !f.is_lto_obj

/-- C3: after `do_lto`'s retirement step, the active object set
contains zero objects flagged `is_lto_obj`, and every IR object that
was in the set has its `is_alive` flag set to false (in the
intermediate marking pass) before the removal. -/
theorem do_lto_removes_all_ir (objs : List LinkObj) :
    (∀ f ∈ do_lto_objs objs, f.is_lto_obj = false) ∧
    ((do_lto_objs objs).filter fun f => f.is_lto_obj) = [] ∧
    (∀ i f, objs.get? i = some f → f.is_lto_obj = true →
      (retire_pass objs).get? i = some { f with is_alive := false }) := by
  refine ⟨?_, ?_, ?_⟩
  · intro f hf
    have := List.of_mem_filter hf
    simpa using this
  · rw [List.filter_eq_nil_iff]
    intro f hf
    have := List.of_mem_filter hf
    simp at this
    simp [this]
  · intro i f hget hlto
    rw [retire_pass, List.get?_map, hget]
    simp [hlto]

/-- Witness for C3 at a concrete mixed object set: object 1 is an IR
object, object 2 a regular object. -/
theorem do_lto_removes_all_ir_witness :
    (∀ f ∈ do_lto_objs [⟨1, true, true⟩, ⟨2, false, true⟩], f.is_lto_obj = false) ∧
    ((do_lto_objs [⟨1, true, true⟩, ⟨2, false, true⟩]).filter
      fun f => f.is_lto_obj) = [] ∧
    (∀ i f, ([⟨1, true, true⟩, ⟨2, false, true⟩] : List LinkObj).get? i = some f →
      f.is_lto_obj = true →
      (retire_pass [⟨1, true, true⟩, ⟨2, false, true⟩]).get? i =
        some { f with is_alive := false }) :=
  do_lto_removes_all_ir [⟨1, true, true⟩, ⟨2, false, true⟩]

/-- C10: the retirement step touches only IR-flagged objects — the
surviving set is exactly the non-IR objects, in their original order
and with their original fields (`is_alive` included). -/
theorem do_lto_preserves_non_ir (objs : List LinkObj) :
    do_lto_objs objs = objs.filter fun f => !f.is_lto_obj := by
  induction objs with
  | nil => rfl
  | cons a l ih =>
    simp only [do_lto_objs, retire_pass, List.map_cons, List.filter_cons] at ih ⊢
    cases ha : a.is_lto_obj with
    | true => simpa [ha] using ih
    | false => simpa [ha] using ih

/-- The global `phase` variable (lto.cc:102): 0 is not-loaded, 1 is
collecting, 2 is compiling. Each operation models its `assert` on
`phase` followed by its write to `phase`; `none` is the assertion
failing. -/
def load_plugin_phase (p : Nat) : Option Nat :=
  if p = 0 then some 1 else none

/-- The phase protocol of `do_lto` (lto.cc:505-506): `assert(phase == 1)`
then `phase = 2`. -/
def do_lto_phase (p : Nat) : Option Nat :=
  if p = 1 then some 2 else none

/-- The phase protocol of `add_symbols` (lto.cc:144): `assert(phase == 1)`;
the phase is not changed. -/
def add_symbols_phase (p : Nat) : Option Nat :=
  if p = 1 then some p else none

/-- C6: the phase machine admits exactly the transitions 0→1 (once, by
the loader — re-running the loader from phase 1 or 2 is an assertion
failure) and 1→2 (once, when compilation is triggered); enumerating
symbols after phase 2 and triggering compilation outside phase 1 are
assertion failures; and every successful transition strictly increases
the phase. -/
theorem phase_machine_transitions (p q : Nat) :
    (load_plugin_phase p = some q → p = 0 ∧ q = 1) ∧
    (do_lto_phase p = some q → p = 1 ∧ q = 2) ∧
    (add_symbols_phase p = some q → p = 1 ∧ q = 1) ∧
    load_plugin_phase 1 = none ∧
    load_plugin_phase 2 = none ∧
    do_lto_phase 2 = none ∧
    add_symbols_phase 2 = none ∧
    (p ≠ 1 → do_lto_phase p = none) ∧
    (p ≠ 1 → add_symbols_phase p = none) ∧
    (load_plugin_phase p = some q → p < q) ∧
    (do_lto_phase p = some q → p < q) := by
  refine ⟨?_, ?_, ?_, rfl, rfl, rfl, rfl, ?_, ?_, ?_, ?_⟩
  · intro h
    by_cases hp : p = 0 <;> simp [load_plugin_phase, hp] at h <;> simp [hp, ← h]
  · intro h
    by_cases hp : p = 1 <;> simp [do_lto_phase, hp] at h <;> simp [hp, ← h]
  · intro h
    by_cases hp : p = 1 <;> simp [add_symbols_phase, hp] at h <;> simp [hp, ← h]
  · intro hp
    simp [do_lto_phase, hp]
  · intro hp
    simp [add_symbols_phase, hp]
  · intro h
    by_cases hp : p = 0 <;> simp [load_plugin_phase, hp] at h <;> omega
  · intro h
    by_cases hp : p = 1 <;> simp [do_lto_phase, hp] at h <;> omega

/-- Witness for C6 at the concrete transition 0→1. -/
theorem phase_machine_transitions_witness :
    (load_plugin_phase 0 = some 1 → (0 : Nat) = 0 ∧ (1 : Nat) = 1) ∧
    (do_lto_phase 0 = some 1 → (0 : Nat) = 1 ∧ (1 : Nat) = 2) ∧
    (add_symbols_phase 0 = some 1 → (0 : Nat) = 1 ∧ (1 : Nat) = 1) ∧
    load_plugin_phase 1 = none ∧
    load_plugin_phase 2 = none ∧
    do_lto_phase 2 = none ∧
    add_symbols_phase 2 = none ∧
    ((0 : Nat) ≠ 1 → do_lto_phase 0 = none) ∧
    ((0 : Nat) ≠ 1 → add_symbols_phase 0 = none) ∧
    (load_plugin_phase 0 = some 1 → 0 < 1) ∧
    (do_lto_phase 0 = some 1 → 0 < 1) :=
  phase_machine_transitions 0 1

/-- The once-guard of `read_lto_object` (lto.cc:457-459): a
`std::once_flag` plus a count of completed `load_plugin` runs, where
one run is the whole dlopen / dlsym-of-`onload` / capability-table /
single-`onload`-invocation sequence (lto.cc:331-394). -/
structure PluginLoader where
  once_done : Bool
  load_count : Nat
  deriving DecidableEq, Repr

/-- The loader state before any IR object is ingested. -/
def loader_init : PluginLoader where
  once_done := false
  load_count := 0

/-- The `std::call_once(flag, [&] { load_plugin(ctx); })` step that
every `read_lto_object` call performs (lto.cc:458-459). -/
def read_lto_object_load (s : PluginLoader) : PluginLoader :=
  if s.once_done then s else { once_done := true, load_count := s.load_count + 1 }

/-- The loader state after `n` consecutive `read_lto_object` calls. -/
def ingest_seq : Nat → PluginLoader
  | 0 => loader_init
  | n + 1 => read_lto_object_load (ingest_seq n)

/-- C8: no matter how many IR objects are ingested (as long as at least
one is), the `load_plugin` sequence — dlopen, `onload` lookup,
capability-table construction and the single `onload` invocation — has
run exactly once. -/
theorem load_plugin_runs_once (n : Nat) (hn : 1 ≤ n) :
    (ingest_seq n).load_count = 1 ∧ (ingest_seq n).once_done = true := by
  induction n with
  | zero => omega
  | succ n ih =>
    cases Nat.eq_zero_or_pos n with
    | inl h0 => subst h0; exact ⟨rfl, rfl⟩
    | inr hpos =>
      obtain ⟨h1, h2⟩ := ih hpos
      simp [ingest_seq, read_lto_object_load, h1, h2]

/-- Witness for C8 after five ingestions. -/
theorem load_plugin_runs_once_witness :
    1 ≤ 5 ∧ ((ingest_seq 5).load_count = 1 ∧ (ingest_seq 5).once_done = true) :=
  ⟨by decide, load_plugin_runs_once 5 (by decide)⟩

/-- The four parallel per-symbol arrays that `read_lto_object` builds
(lto.cc:461-497): `symbols` starts with the reserved null symbol
(lto.cc:463) and gets one interned symbol per plugin record;
`elf_syms` starts with a null entry (`new std::vector<ElfSym<E>>(1)`,
lto.cc:486) and gets one `to_elf_sym` per record; `sym_fragments` and
`symvers` are resized to `esyms->size()` (lto.cc:494-495), modelled as
lists of default entries of that length. -/
structure LTOSymArrays where
  symbols : List Nat
  elf_syms : List ElfSym
  sym_fragments : List Nat
  symvers : List Nat
  deriving Repr

/-- The symbol-array construction of `read_lto_object` (lto.cc:461-497),
parameterized by the id of the freshly allocated null symbol and by the
interning function `get_symbol` of the link-wide symbol table. -/
def read_lto_object_arrays (nullId : Nat) (intern : PluginSymbol → Nat)
    (plugin_symbols : List PluginSymbol) : LTOSymArrays :=
  let esyms := elfSymZero :: plugin_symbols.map to_elf_sym
  { symbols := nullId :: plugin_symbols.map intern
    elf_syms := esyms
    sym_fragments := List.replicate esyms.length 0
    symvers := List.replicate esyms.length 0 }

/-- C9: every array `read_lto_object` builds for an IR object has
length equal to the number of plugin symbol records delivered at claim
time plus one reserved null entry at index 0, and the four arrays all
agree on that length. -/
theorem read_lto_object_array_lengths (nullId : Nat)
    (intern : PluginSymbol → Nat) (psyms : List PluginSymbol) :
    (read_lto_object_arrays nullId intern psyms).symbols.length =
      psyms.length + 1 ∧
    (read_lto_object_arrays nullId intern psyms).elf_syms.length =
      psyms.length + 1 ∧
    (read_lto_object_arrays nullId intern psyms).sym_fragments.length =
      psyms.length + 1 ∧
    (read_lto_object_arrays nullId intern psyms).symvers.length =
      psyms.length + 1 := by
  simp [read_lto_object_arrays]

/-- Modelled from the spec: the priorities of the originally-ingested
IR objects. The code that assigns a priority to an object returned by
`read_lto_object` is the caller in the linker core (not part of
`lto.cc`); per the spec it assigns each ingested IR object a strictly
increasing priority from the session counter. The counter's starting
value is not specified, so it is the parameter `start`. -/
def ingest_priorities (start n : Nat) : List Nat :=
  (List.range n).map fun i => start + i

/-- The priority of the `k`-th compiled-replacement object handed back
via `add_input_file` (lto.cc:154,162): a function-local counter
`file_priority` starting at 100. -/
def add_input_file_priority (k : Nat) : Nat := 100 + k

/-- C5 counterexample: with the session counter starting at 1 and 100
IR objects ingested, the last IR object has priority 100 while the
first compiled replacement also gets priority 100 — not strictly
greater. -/
theorem replacement_priority_not_greater :
    100 ∈ ingest_priorities 1 100 ∧ add_input_file_priority 0 = 100 ∧
    ¬ (∀ p ∈ ingest_priorities 1 100, p < add_input_file_priority 0) := by
  decide

/-- C5 (amended): ingestion priorities are strictly increasing in
ingestion order and replacement priorities are strictly increasing from
100; a replacement's priority exceeds an ingested IR object's priority
whenever that ingested priority is below 100. -/
theorem lto_priority_ordering (start n j k : Nat) :
    List.Pairwise (· < ·) (ingest_priorities start n) ∧
    (j < k → add_input_file_priority j < add_input_file_priority k) ∧
    (∀ p ∈ ingest_priorities start n, p < 100 →
      p < add_input_file_priority k) := by
  refine ⟨?_, ?_, ?_⟩
  · exact List.Pairwise.map _ (fun a b h => by omega) (List.pairwise_lt_range n)
  · intro h
    simp only [add_input_file_priority]
    omega
  · intro p _ hp
    simp only [add_input_file_priority]
    omega

/-- Witness for C5's amended theorem: session counter starting at 1,
three ingested IR objects, replacements 0 and 1. -/
theorem lto_priority_ordering_witness :
    List.Pairwise (· < ·) (ingest_priorities 1 3) ∧
    (0 < 1 → add_input_file_priority 0 < add_input_file_priority 1) ∧
    (∀ p ∈ ingest_priorities 1 3, p < 100 →
      p < add_input_file_priority 1) :=
  lto_priority_ordering 1 3 0 1

end MoldLTO
